import Mathlib

/-!
# stillbecoming — verification of the procedural-generation and ritual engine

Shallow embedding of the repository's deterministic generation and animation
core, over exact rational arithmetic (`ℚ` stands in for JavaScript doubles;
all comparisons and updates in the embedded code are exact rational
operations).  Transcendental host functions (`Math.cos`, `Math.sin`,
`Math.sqrt`, `Math.atan2`, `Math.pow(φ, ·)`, `p5.noise`, `p5.millis`) are
threaded in as an explicit environment of abstract rational-valued functions:
the embedded generators apply them exactly where the source does.

Sources embedded:
- `src/js/utils/easing.js` (easing functions, `lerp`)
- `RitualController` (state table `STATES`, `STATE_SEQUENCE`, `update`,
  `_transitionToNextState`, `_updateParameters`, `getGlobalProgress`)
- `src/js/utils/hash.js` (`simpleHash`) and `EditionManager`
- `ParticleSystem` (constructor and `update`)
- `src/js/systems/GeometrySystem.js` (first `GeometrySystem` class:
  `_generateCircleSets`, `_generateSpirals`, `_generateRadialGuides`,
  `_renderCircleSets` reveal count)
- `src/js/systems/GridSystem.js` (first `GridSystem` class: constructor,
  `_generateFilledCells`, `_generateFragments`, inner/outer line coloring)
- `src/js/systems/WeatheringPass.js` (`_generateStains`, `_generateGlitchFlecks`)
-/

namespace StillBecoming

/-! ## easing.js -/

/-- `easing.js`: `lerp(a, b, t) = a + (b - a) * t`. -/
def lerp (a b t : ℚ) : ℚ := a + (b - a) * t

/-- `easing.js`: `easeInCubic(t) = t^3`. -/
def easeInCubic (t : ℚ) : ℚ := t * t * t

/-- `easing.js`: `easeOutCubic(t) = 1 - (1-t)^3`. -/
def easeOutCubic (t : ℚ) : ℚ := 1 - (1 - t) ^ 3

/-- `easing.js`: `easeInOutCubic`. -/
def easeInOutCubic (t : ℚ) : ℚ :=
  if t < 1/2 then 4 * t * t * t else 1 - (-2 * t + 2) ^ 3 / 2

/-! ## RitualController

The controller's ten parameter channels (`this.params` keys). -/

inductive Channel : Type
  | cameraTiltX | cameraTiltY | cameraZoom | zLiftStrength | noiseAmp
  | glitchRate | geometryCompletion | gridVisibility | particleEnergy
  | weatheringAmount
  deriving DecidableEq, Repr

/-- A parameter vector: one rational per named channel. -/
def Params : Type := Channel → ℚ

/-- `STATE_SEQUENCE` (10 states, index 0 = `BOOT` … index 9 = `RELIC`). -/
def stateName : ℕ → String
  | 0 => "BOOT"
  | 1 => "TITLE"
  | 2 => "INVOKE_2D"
  | 3 => "BLOOM_BUILD"
  | 4 => "GRID_ASSERT"
  | 5 => "BREACH_3D"
  | 6 => "DESTABILIZE"
  | 7 => "REASSEMBLE"
  | 8 => "CONSECRATE_2D"
  | 9 => "RELIC"
  | _ => ""

/-- `STATES[name].duration` by state index, for the nine non-terminal states.
`RELIC` (index 9) has `duration: Infinity` in the source; its transition test
`timeInState >= Infinity` is always false, just as the source's
`currentStateIndex < STATE_SEQUENCE.length - 1` guard is false at index 9,
so the embedded transition condition carries the index guard and never
consults a duration at index ≥ 9 (the value returned there is irrelevant). -/
def stateDuration : ℕ → ℚ
  | 0 => 4/5       -- BOOT 0.8
  | 1 => 11/5      -- TITLE 2.2
  | 2 => 3         -- INVOKE_2D 3.0
  | 3 => 10        -- BLOOM_BUILD 10.0
  | 4 => 6         -- GRID_ASSERT 6.0
  | 5 => 3         -- BREACH_3D 3.0
  | 6 => 5         -- DESTABILIZE 5.0
  | 7 => 5         -- REASSEMBLE 5.0
  | 8 => 9/5       -- CONSECRATE_2D 1.8
  | _ => 0

/-- `STATES[name].targets` by state index and channel. -/
def stateTargets : ℕ → Params
  | 0 => fun ch => match ch with
    | .cameraTiltX => 0 | .cameraTiltY => 0 | .cameraZoom => 1
    | .zLiftStrength => 0 | .noiseAmp => 0 | .glitchRate => 0
    | .geometryCompletion => 0 | .gridVisibility => 0
    | .particleEnergy => 0 | .weatheringAmount => 0
  | 1 => fun ch => match ch with
    | .cameraTiltX => 0 | .cameraTiltY => 0 | .cameraZoom => 1
    | .zLiftStrength => 0 | .noiseAmp => 0 | .glitchRate => 0
    | .geometryCompletion => 0 | .gridVisibility => 0
    | .particleEnergy => 1/10 | .weatheringAmount => 1/20
  | 2 => fun ch => match ch with
    | .cameraTiltX => 0 | .cameraTiltY => 0 | .cameraZoom => 1
    | .zLiftStrength => 0 | .noiseAmp => 1/50 | .glitchRate => 0
    | .geometryCompletion => 3/20 | .gridVisibility => 0
    | .particleEnergy => 3/10 | .weatheringAmount => 1/10
  | 3 => fun ch => match ch with
    | .cameraTiltX => 0 | .cameraTiltY => 0 | .cameraZoom => 1
    | .zLiftStrength => 0 | .noiseAmp => 1/20 | .glitchRate => 1/20
    | .geometryCompletion => 1 | .gridVisibility => 0
    | .particleEnergy => 4/5 | .weatheringAmount => 3/20
  | 4 => fun ch => match ch with
    | .cameraTiltX => 0 | .cameraTiltY => 0 | .cameraZoom => 1
    | .zLiftStrength => 0 | .noiseAmp => 2/25 | .glitchRate => 1/10
    | .geometryCompletion => 1 | .gridVisibility => 1
    | .particleEnergy => 9/10 | .weatheringAmount => 1/5
  | 5 => fun ch => match ch with
    | .cameraTiltX => 2/5 | .cameraTiltY => 3/10 | .cameraZoom => 13/20
    | .zLiftStrength => 3/5 | .noiseAmp => 3/25 | .glitchRate => 3/20
    | .geometryCompletion => 1 | .gridVisibility => 1
    | .particleEnergy => 1 | .weatheringAmount => 1/4
  | 6 => fun ch => match ch with
    | .cameraTiltX => 1/2 | .cameraTiltY => 2/5 | .cameraZoom => 11/20
    | .zLiftStrength => 1 | .noiseAmp => 3/10 | .glitchRate => 2/5
    | .geometryCompletion => 1 | .gridVisibility => 7/10
    | .particleEnergy => 6/5 | .weatheringAmount => 2/5
  | 7 => fun ch => match ch with
    | .cameraTiltX => 1/10 | .cameraTiltY => 1/20 | .cameraZoom => 19/20
    | .zLiftStrength => 3/10 | .noiseAmp => 1/10 | .glitchRate => 1/10
    | .geometryCompletion => 1 | .gridVisibility => 9/10
    | .particleEnergy => 3/5 | .weatheringAmount => 3/10
  | 8 => fun ch => match ch with
    | .cameraTiltX => 0 | .cameraTiltY => 0 | .cameraZoom => 1
    | .zLiftStrength => 0 | .noiseAmp => 1/50 | .glitchRate => 0
    | .geometryCompletion => 1 | .gridVisibility => 1
    | .particleEnergy => 1/5 | .weatheringAmount => 1/2
  | _ => fun ch => match ch with
    | .cameraTiltX => 0 | .cameraTiltY => 0 | .cameraZoom => 1
    | .zLiftStrength => 0 | .noiseAmp => 0 | .glitchRate => 0
    | .geometryCompletion => 1 | .gridVisibility => 1
    | .particleEnergy => 0 | .weatheringAmount => 3/5

/-- The mutable fields of a `RitualController` instance.  The source keeps
`currentStateName` alongside `currentStateIndex`, always as
`STATE_SEQUENCE[currentStateIndex]`; here the name is derived via
`stateName`.  `completionTimestamp` holds the wall-clock instant (`new
Date()`) captured on entry to `RELIC`; the wall clock is threaded into
`update` as an explicit argument `now`. -/
structure RitualController : Type where
  currentStateIndex : ℕ
  timeInState : ℚ
  globalTime : ℚ
  params : Params
  targets : Params
  ritualComplete : Bool
  completionTimestamp : Option ℚ

namespace RitualController

/-- The `RitualController()` constructor. -/
def init : RitualController where
  currentStateIndex := 0
  timeInState := 0
  globalTime := 0
  params := fun ch => match ch with
    | .cameraZoom => 1
    | _ => 0
  targets := stateTargets 0
  ritualComplete := false
  completionTimestamp := none

/-- `_transitionToNextState()`: step the index, reset elapsed-in-state time,
swap targets, and on entry to `RELIC` set the completion flag and capture
the wall-clock timestamp `now`. -/
def transitionToNextState (c : RitualController) (now : ℚ) : RitualController :=
  let idx := c.currentStateIndex + 1
  { c with
    currentStateIndex := idx
    timeInState := 0
    targets := stateTargets idx
    ritualComplete := if stateName idx = "RELIC" then true else c.ritualComplete
    completionTimestamp :=
      if stateName idx = "RELIC" then some now else c.completionTimestamp }

/-- `_updateParameters`: every channel moves toward its target by
`lerp(value, target, 0.05)`; the eased state progress computed in the source
is not read by this parameter loop. -/
def updateParameters (c : RitualController) : RitualController :=
  { c with params := fun ch => lerp (c.params ch) (c.targets ch) (1/20) }

/-- `update(deltaTime)`: accumulate global and in-state time, transition when
the elapsed-in-state time (after accumulation) reaches the state's duration
(the source condition `this.timeInState >= currentState.duration &&
this.currentStateIndex < STATE_SEQUENCE.length - 1`), then smooth the
parameters.  `now` is the wall clock read by `new Date()` inside the
transition. -/
def update (c : RitualController) (dt now : ℚ) : RitualController :=
  updateParameters
    (if stateDuration c.currentStateIndex ≤ c.timeInState + dt ∧ c.currentStateIndex < 9
     then transitionToNextState
       { c with globalTime := c.globalTime + dt, timeInState := c.timeInState + dt } now
     else { c with globalTime := c.globalTime + dt, timeInState := c.timeInState + dt })

/-- Fold a list of `(deltaTime, wall-clock)` frames through `update`. -/
def run (c : RitualController) (l : List (ℚ × ℚ)) : RitualController :=
  l.foldl (fun s p => update s p.1 p.2) c

/-- Sum of the declared durations of the states before index `n`. -/
def sumDur : ℕ → ℚ
  | 0 => 0
  | n + 1 => sumDur n + stateDuration n

/-- `getGlobalProgress()`: 1.0 in `RELIC`, otherwise elapsed (full durations
of finished states plus time in the current one) over the total non-terminal
duration. -/
def getGlobalProgress (c : RitualController) : ℚ :=
  if stateName c.currentStateIndex = "RELIC" then 1
  else (sumDur (min c.currentStateIndex 9) +
        (if c.currentStateIndex < 9 then c.timeInState else 0)) / sumDur 9

end RitualController

/-! ## utils/hash.js and EditionManager (`_computeEdition`, `_formatEditionLabel`)

JavaScript strings are modelled as their sequences of UTF-16 code units, the
values `charCodeAt` yields; string concatenation is list append. -/

/-- A JavaScript string as the list of its `charCodeAt` code units. -/
def JSString : Type := List ℕ

instance : Append JSString := ⟨fun a b => List.append a b⟩

/-- JavaScript `ToInt32` (the effect of `hash & hash` and of `<<` on its
operands): reduce mod `2^32` into the signed 32-bit range. -/
def toInt32 (z : ℤ) : ℤ :=
  let m := z % 4294967296
  if m < 2147483648 then m else m - 4294967296

/-- One step of `simpleHash`:
`hash = ((hash << 5) - hash) + char; hash = hash & hash`.
`hash << 5` coerces to int32 and shifts with 32-bit wrap-around; the
subtraction and addition are exact (they stay far below 2^53); `& hash`
coerces the sum back to int32. -/
def hashStep (h : ℤ) (c : ℕ) : ℤ :=
  toInt32 (toInt32 (h * 32) - h + c)

/-- `simpleHash(str)` from `utils/hash.js`: fold `hashStep` from 0 over the
code units, then `Math.abs`. -/
def simpleHash (s : JSString) : ℕ :=
  (List.foldl hashStep 0 s).natAbs

namespace EditionManager

/-- `this.cap = 100`. -/
def cap : ℕ := 100

/-- `_computeEdition()`: `simpleHash(visitorToken + masterSeed) % cap + 1`.
(`simpleHash` is nonnegative, so JavaScript `%` agrees with `Nat.mod`.) -/
def computeEdition (visitorToken masterSeed : JSString) : ℕ :=
  simpleHash (visitorToken ++ masterSeed) % cap + 1

/-- `String(n).padStart(3, '0')`. -/
def padStart3 (s : String) : String :=
  String.mk (List.replicate (3 - s.length) (Char.ofNat 48) ++ s.toList)

/-- `_formatEditionLabel()`: `` `Edition ${paddedNumber} of ${this.cap}` ``. -/
def formatEditionLabel (n : ℕ) : String :=
  "Edition " ++ padStart3 (toString n) ++ " of " ++ toString cap

end EditionManager

/-! ## Host environment and the seeded generator -/

/-- The host math/graphics primitives the generators call
(`Math.cos`, `Math.sin`, `Math.sqrt`, `Math.atan2`, `Math.pow(φ, ·)`,
`p5.noise`, `p5.millis()`, and the constants `TWO_PI` and `PI`), abstracted
as rational-valued functions.  Two sessions in the same host share one
`Env`. -/
structure Env : Type where
  cos : ℚ → ℚ
  sin : ℚ → ℚ
  sqrt : ℚ → ℚ
  atan2 : ℚ → ℚ → ℚ
  powPhi : ℚ → ℚ
  noise : ℚ → ℚ → ℚ → ℚ
  twoPi : ℚ
  pi : ℚ
  millis : ℚ

/-- Modelled from the spec: `SeedManager` (imported from
`js/controllers/SeedManager.js`) is not among the provided sources, only its
callers are.  Spec §4.1: `uniform(min, max)` "returns a value in [min, max)
drawn from a PRNG initialized from the seed; repeated calls advance PRNG
state deterministically (same call sequence ⇒ same outputs)".  The PRNG is
modelled as its deterministic stream of unit draws (`draws`, one value per
call, in `[0, 1)` for genuine runs) together with the number of draws already
consumed (`idx`). -/
structure SeedManager : Type where
  draws : ℕ → ℚ
  idx : ℕ

/-- Modelled from the spec: `seedManager.randRange(lo, hi)` consumes the next
unit draw `u` and returns `lo + (hi - lo) * u ∈ [lo, hi)`, advancing the
generator state. -/
def randRange (lo hi : ℚ) (s : SeedManager) : ℚ × SeedManager :=
  (lo + (hi - lo) * s.draws s.idx, ⟨s.draws, s.idx + 1⟩)

/-! ## ParticleSystem (`src/unnamed/part_000`) -/

/-- One particle: position, velocity, life, size, trail and active flag. -/
structure Particle : Type where
  x : ℚ
  y : ℚ
  vx : ℚ
  vy : ℚ
  life : ℚ
  size : ℚ
  path : List (ℚ × ℚ)
  active : Bool

/-- `_createParticle()`: six draws (angle, radius, vx, vy, life, size), a
point on the disk via `cos`/`sin`, empty trail, inactive. -/
def createParticle (env : Env) (s : SeedManager) : Particle × SeedManager :=
  let (angle, s) := randRange 0 env.twoPi s
  let (radius, s) := randRange 0 (2/5) s
  let (vx, s) := randRange (-1/1000) (1/1000) s
  let (vy, s) := randRange (-1/1000) (1/1000) s
  let (life, s) := randRange (1/2) 1 s
  let (size, s) := randRange (1/1250) (1/500) s
  ({ x := radius * env.cos angle, y := radius * env.sin angle,
     vx := vx, vy := vy, life := life, size := size, path := [], active := false }, s)

/-- The constructor loop pushing `maxParticles` fresh particles. -/
def createParticles (env : Env) : ℕ → SeedManager → List Particle × SeedManager
  | 0, s => ([], s)
  | n + 1, s =>
      let (p, s) := createParticle env s
      let (ps, s) := createParticles env n s
      (p :: ps, s)

/-- The `ParticleSystem` instance state: the capacity field
`this.maxParticles = 120` and the particle array. -/
structure ParticleSystem : Type where
  maxParticles : ℕ
  particles : List Particle

/-- The `ParticleSystem` constructor. -/
def ParticleSystem.create (env : Env) (s : SeedManager) : ParticleSystem × SeedManager :=
  let (ps, s) := createParticles env 120 s
  ({ maxParticles := 120, particles := ps }, s)

/-- The body of the `update` loop for the particle at array index `i`:
activation by index against `activeCount`, then — for active particles only —
velocity integration (`* deltaTime * 60`), the noise steering force (gated on
`noiseAmp > 0`), damping by `0.98`, radial wrap past distance `0.6`, trail
push with FIFO bound 5, and the life countdown wrapping at 0 back to 1. -/
def updateParticle (env : Env) (energy noiseAmp dt : ℚ) (activeCount : ℤ)
    (i : ℕ) (p : Particle) : Particle :=
  if (i : ℤ) < activeCount then
    let x := p.x + p.vx * dt * 60
    let y := p.y + p.vy * dt * 60
    let v :=
      if 0 < noiseAmp then
        let noiseForce := env.noise (x * 3) (y * 3) (env.millis * (3/10000))
        let angle := noiseForce * env.twoPi * 2
        (p.vx + env.cos angle * (1/20000) * energy,
         p.vy + env.sin angle * (1/20000) * energy)
      else (p.vx, p.vy)
    let vx := v.1 * (49/50)
    let vy := v.2 * (49/50)
    let dist := env.sqrt (x * x + y * y)
    let pos :=
      if 3/5 < dist then
        let angle := env.atan2 y x + env.pi
        ((3/5) * (1/2) * env.cos angle, (3/5) * (1/2) * env.sin angle)
      else (x, y)
    let path := p.path ++ [pos]
    let path := if 5 < path.length then path.tail else path
    let life := p.life - dt * (1/5)
    let life := if life ≤ 0 then 1 else life
    { x := pos.1, y := pos.2, vx := vx, vy := vy, life := life, size := p.size,
      path := path, active := true }
  else
    { p with active := false }

/-- The `for (let i = 0; i < this.particles.length; i++)` loop of `update`,
carrying the running array index. -/
def updateParticles (env : Env) (energy noiseAmp dt : ℚ) (activeCount : ℤ) :
    ℕ → List Particle → List Particle
  | _, [] => []
  | i, p :: ps =>
      updateParticle env energy noiseAmp dt activeCount i p ::
        updateParticles env energy noiseAmp dt activeCount (i + 1) ps

/-- `ParticleSystem.update(params, deltaTime)`:
`activeCount = Math.floor(params.particleEnergy * this.maxParticles)`,
then the per-particle loop.  Inactive particles are flagged, never removed. -/
def ParticleSystem.update (env : Env) (sys : ParticleSystem) (params : Params)
    (dt : ℚ) : ParticleSystem :=
  let energy := params Channel.particleEnergy
  let activeCount : ℤ := Int.floor (energy * (sys.maxParticles : ℚ))
  { sys with particles :=
      updateParticles env energy (params Channel.noiseAmp) dt activeCount 0 sys.particles }

/-! ## GeometrySystem (`src/js/systems/GeometrySystem.js`, first class) -/

/-- One circle of a concentric set. -/
structure Circle : Type where
  radius : ℚ
  strokeWeight : ℚ
  hasFill : Bool
  fillAlpha : ℚ

/-- One concentric-circle set. -/
structure CircleSet : Type where
  centerX : ℚ
  centerY : ℚ
  circles : List Circle
  colorIndex : ℤ

/-- One sampled spiral point. -/
structure SpiralPoint : Type where
  x : ℚ
  y : ℚ
  t : ℚ

/-- One spiral descriptor. -/
structure Spiral : Type where
  points : List SpiralPoint
  colorIndex : ℤ
  strokeWeight : ℚ

/-- One radial construction guide. -/
structure RadialGuide : Type where
  angle : ℚ
  length : ℚ

/-- The inner circle loop of `_generateCircleSets`: for `i` from the running
index up, `t = (i+1)/numCircles`, `radius = maxRadius * t`, a stroke-weight
draw, the fill flag `hasFill && i > numCircles * 0.5`, and a fill-alpha
draw. -/
def genCirclesLoop (maxRadius : ℚ) (numCircles : ℕ) (hasFill : Bool) :
    ℕ → ℕ → SeedManager → List Circle × SeedManager
  | 0, _, s => ([], s)
  | k + 1, i, s =>
      let t : ℚ := (i + 1) / (numCircles : ℚ)
      let (sw, s) := randRange (1/1000) (1/250) s
      let (fa, s) := randRange (3/20) (7/20) s
      let c : Circle :=
        { radius := maxRadius * t, strokeWeight := sw,
          hasFill := hasFill && decide ((numCircles : ℚ) * (1/2) < (i : ℚ)),
          fillAlpha := fa }
      let (rest, s) := genCirclesLoop maxRadius numCircles hasFill k (i + 1) s
      (c :: rest, s)

/-- One iteration of the `_generateCircleSets` outer loop: draws for center,
max radius, circle count (`Math.floor` of a `[4,10)` draw), fill flag
(`randRange(0,1) > 0.3`), palette index, then the circle loop. -/
def genCircleSet (s : SeedManager) : CircleSet × SeedManager :=
  let (centerX, s) := randRange (-3/20) (3/20) s
  let (centerY, s) := randRange (-3/20) (3/20) s
  let (maxRadius, s) := randRange (1/4) (1/2) s
  let (ncq, s) := randRange 4 10 s
  let numCircles : ℕ := Int.toNat (Int.floor ncq)
  let (fillDraw, s) := randRange 0 1 s
  let hasFill : Bool := decide ((3/10 : ℚ) < fillDraw)
  let (ciq, s) := randRange 0 3 s
  let colorIndex : ℤ := Int.floor ciq
  let (circles, s) := genCirclesLoop maxRadius numCircles hasFill numCircles 0 s
  ({ centerX := centerX, centerY := centerY, circles := circles,
     colorIndex := colorIndex }, s)

/-- The `_generateCircleSets` outer loop over `numSets` iterations. -/
def genCircleSets : ℕ → SeedManager → List CircleSet × SeedManager
  | 0, s => ([], s)
  | n + 1, s =>
      let (cs, s) := genCircleSet s
      let (rest, s) := genCircleSets n s
      (cs :: rest, s)

/-- The 150 sampled points of one spiral (`points = 150`): for each `i`,
`t = i/points`, `angle = t * turns * TWO_PI`, `radius = t * maxRadius`,
`scaledRadius = radius * φ^(2t-1)`, offset by the spiral's center. -/
def mkSpiralPoints (env : Env) (maxRadius turns offsetX offsetY : ℚ) : List SpiralPoint :=
  (List.range 150).map (fun i =>
    let t : ℚ := (i : ℚ) / 150
    let angle := t * turns * env.twoPi
    let radius := t * maxRadius
    let scaledRadius := radius * env.powPhi (t * 2 - 1)
    { x := scaledRadius * env.cos angle + offsetX,
      y := scaledRadius * env.sin angle + offsetY, t := t })

/-- One iteration of `_generateSpirals`: draws for max radius, turns, offsets
and palette index, the pure point sampling, then the stroke-weight draw. -/
def genSpiral (env : Env) (s : SeedManager) : Spiral × SeedManager :=
  let (maxRadius, s) := randRange (3/10) (1/2) s
  let (turns, s) := randRange 2 4 s
  let (offsetX, s) := randRange (-1/10) (1/10) s
  let (offsetY, s) := randRange (-1/10) (1/10) s
  let (ciq, s) := randRange 0 3 s
  let colorIndex : ℤ := Int.floor ciq
  let points := mkSpiralPoints env maxRadius turns offsetX offsetY
  let (sw, s) := randRange (1/500) (3/500) s
  ({ points := points, colorIndex := colorIndex, strokeWeight := sw }, s)

/-- The `_generateSpirals` loop over `numSpirals` iterations. -/
def genSpirals (env : Env) : ℕ → SeedManager → List Spiral × SeedManager
  | 0, s => ([], s)
  | n + 1, s =>
      let (sp, s) := genSpiral env s
      let (rest, s) := genSpirals env n s
      (sp :: rest, s)

/-- The `_generateRadialGuides` loop: guide `i` of `numGuides` has angle
`(i/numGuides) * TWO_PI` plus a jitter draw, and a length draw. -/
def genRadialGuides (env : Env) (numGuides : ℕ) :
    ℕ → ℕ → SeedManager → List RadialGuide × SeedManager
  | 0, _, s => ([], s)
  | k + 1, i, s =>
      let (jit, s) := randRange (-1/10) (1/10) s
      let angle := ((i : ℚ) / (numGuides : ℚ)) * env.twoPi + jit
      let (len, s) := randRange (3/10) (3/5) s
      let (rest, s) := genRadialGuides env numGuides k (i + 1) s
      ({ angle := angle, length := len } :: rest, s)

/-- The generated geometry descriptors. -/
structure GeometrySystem : Type where
  circleSets : List CircleSet
  spirals : List Spiral
  radialGuides : List RadialGuide

/-- The `GeometrySystem` constructor: `_generateCircleSets()` (2–4 sets via
`Math.floor(randRange(2,5))`), `_generateSpirals()` (1–3 via
`Math.floor(randRange(1,4))`), `_generateRadialGuides()` (8–15 via
`Math.floor(randRange(8,16))`), in that order on one shared generator. -/
def GeometrySystem.create (env : Env) (s : SeedManager) : GeometrySystem × SeedManager :=
  let (nsq, s) := randRange 2 5 s
  let (circleSets, s) := genCircleSets (Int.toNat (Int.floor nsq)) s
  let (nspq, s) := randRange 1 4 s
  let (spirals, s) := genSpirals env (Int.toNat (Int.floor nspq)) s
  let (ngq, s) := randRange 8 16 s
  let numGuides : ℕ := Int.toNat (Int.floor ngq)
  let (radialGuides, s) := genRadialGuides env numGuides numGuides 0 s
  ({ circleSets := circleSets, spirals := spirals, radialGuides := radialGuides }, s)

/-- `p5.map(value, start1, stop1, start2, stop2, true)` for `start2 < stop2`
(the p5 library semantics at the `_renderCircleSets` call site): linear remap
then constrain into `[start2, stop2]`. -/
def p5mapClamped (value start1 stop1 start2 stop2 : ℚ) : ℚ :=
  let newval := (value - start1) / (stop1 - start1) * (stop2 - start2) + start2
  max start2 (min newval stop2)

/-- The number of circles of an `n`-circle set drawn by the render path:
`render` bails out when `completion <= 0` and calls `_renderCircleSets` only
when `completion > 0.2`; there,
`circleCompletion = p5.map(completion, 0.2, 1.0, 0, 1, true)` and
`numCirclesToShow = Math.ceil(circleCompletion * n)`. -/
def revealedCircleCount (completion : ℚ) (n : ℕ) : ℤ :=
  if completion ≤ 0 then 0
  else if 1/5 < completion then
    Int.ceil (p5mapClamped completion (1/5) 1 0 1 * (n : ℚ))
  else 0

/-- The claim's own formula for the revealed-circle count: `ceil(m × n)`
where `m` is `completion` remapped linearly from `[0.2, 1.0]` to `[0, 1]` and
clamped to `[0, 1]`. -/
def specRevealedCount (completion : ℚ) (n : ℕ) : ℤ :=
  Int.ceil (min 1 (max 0 ((completion - 1/5) / (4/5))) * (n : ℚ))

/-! ## GridSystem (`src/js/systems/GridSystem.js`, first class) -/

/-- A translucent filled grid cell. -/
structure FilledCell : Type where
  gridX : ℤ
  gridY : ℤ
  colorIndex : ℤ
  alpha : ℚ

/-- A detachable grid fragment with its 3D drift vector. -/
structure Fragment : Type where
  gridX : ℤ
  gridY : ℤ
  zOffset : ℚ
  driftX : ℚ
  driftY : ℚ
  driftZ : ℚ

/-- The `_generateFilledCells` loop. -/
def genFilledCells (gridSize : ℤ) : ℕ → SeedManager → List FilledCell × SeedManager
  | 0, s => ([], s)
  | n + 1, s =>
      let (gx, s) := randRange 0 (gridSize : ℚ) s
      let (gy, s) := randRange 0 (gridSize : ℚ) s
      let (ciq, s) := randRange 0 3 s
      let (alpha, s) := randRange (1/10) (1/4) s
      let cell : FilledCell :=
        { gridX := Int.floor gx, gridY := Int.floor gy,
          colorIndex := Int.floor ciq, alpha := alpha }
      let (rest, s) := genFilledCells gridSize n s
      (cell :: rest, s)

/-- The `_generateFragments` loop (`fragmentCount = 6`): tile coordinates
drawn by `Math.floor(randRange(0, gridSize))`, `zOffset` initialised to 0,
and the per-fragment drift vector draws. -/
def genFragments (gridSize : ℤ) : ℕ → SeedManager → List Fragment × SeedManager
  | 0, s => ([], s)
  | n + 1, s =>
      let (gx, s) := randRange 0 (gridSize : ℚ) s
      let (gy, s) := randRange 0 (gridSize : ℚ) s
      let (dx, s) := randRange (-1/50) (1/50) s
      let (dy, s) := randRange (-1/50) (1/50) s
      let (dz, s) := randRange (1/10) (3/10) s
      let frag : Fragment :=
        { gridX := Int.floor gx, gridY := Int.floor gy, zOffset := 0,
          driftX := dx, driftY := dy, driftZ := dz }
      let (rest, s) := genFragments gridSize n s
      (frag :: rest, s)

/-- The generated grid state. -/
structure GridSystem : Type where
  gridSize : ℤ
  innerGridColor : ℤ
  outerGridColor : ℤ
  filledCells : List FilledCell
  fragments : List Fragment

/-- The `GridSystem` constructor: `gridSize = Math.floor(randRange(16, 24))`,
two palette-index draws, `_generateFilledCells()`
(`Math.floor(randRange(5, 15))` cells), then `_generateFragments()`
(6 fragments). -/
def GridSystem.create (s : SeedManager) : GridSystem × SeedManager :=
  let (gsq, s) := randRange 16 24 s
  let gridSize : ℤ := Int.floor gsq
  let (innq, s) := randRange 0 3 s
  let (outq, s) := randRange 0 3 s
  let (nfq, s) := randRange 5 15 s
  let (filledCells, s) := genFilledCells gridSize (Int.toNat (Int.floor nfq)) s
  let (fragments, s) := genFragments gridSize 6 s
  ({ gridSize := gridSize, innerGridColor := Int.floor innq,
     outerGridColor := Int.floor outq, filledCells := filledCells,
     fragments := fragments }, s)

/-- The inner/outer classification of grid line `i` computed in `render`:
`distFromCenter = Math.abs(i - gridSize / 2)` (true division) compared
against `centerThreshold = gridSize * 0.3`. -/
def lineIsInner (gridSize : ℤ) (i : ℕ) : Bool :=
  decide (|(i : ℚ) - (gridSize : ℚ) / 2| < (gridSize : ℚ) * (3/10))

/-- The palette index `render` selects for grid line `i`:
`isInner ? this.innerGridColor : this.outerGridColor`. -/
def lineColorIndex (gridSize innerGridColor outerGridColor : ℤ) (i : ℕ) : ℤ :=
  if lineIsInner gridSize i then innerGridColor else outerGridColor

/-- The palette indices of the vertical grid lines, in loop order
`for (let i = 0; i <= this.gridSize; i++)`. -/
def verticalLineColors (gridSize innerGridColor outerGridColor : ℤ) : List ℤ :=
  (List.range (Int.toNat gridSize + 1)).map
    (lineColorIndex gridSize innerGridColor outerGridColor)

/-- The palette indices of the horizontal grid lines, in loop order
`for (let j = 0; j <= this.gridSize; j++)` (the same per-index rule). -/
def horizontalLineColors (gridSize innerGridColor outerGridColor : ℤ) : List ℤ :=
  (List.range (Int.toNat gridSize + 1)).map
    (lineColorIndex gridSize innerGridColor outerGridColor)

/-! ## WeatheringPass (`src/js/systems/WeatheringPass.js`) -/

/-- One organic stain blob. -/
structure Stain : Type where
  x : ℚ
  y : ℚ
  size : ℚ
  opacity : ℚ
  colorIndex : ℤ

/-- One glitch fleck. -/
structure Fleck : Type where
  x : ℚ
  y : ℚ
  size : ℚ
  opacity : ℚ

/-- The `_generateStains` loop. -/
def genStains : ℕ → SeedManager → List Stain × SeedManager
  | 0, s => ([], s)
  | n + 1, s =>
      let (x, s) := randRange (-1/2) (1/2) s
      let (y, s) := randRange (-1/2) (1/2) s
      let (size, s) := randRange (1/10) (3/10) s
      let (opacity, s) := randRange (3/100) (2/25) s
      let (ciq, s) := randRange 0 2 s
      let st : Stain :=
        { x := x, y := y, size := size, opacity := opacity,
          colorIndex := Int.floor ciq }
      let (rest, s) := genStains n s
      (st :: rest, s)

/-- The `_generateGlitchFlecks` loop (`count = 30`). -/
def genGlitchFlecks : ℕ → SeedManager → List Fleck × SeedManager
  | 0, s => ([], s)
  | n + 1, s =>
      let (x, s) := randRange (-1/2) (1/2) s
      let (y, s) := randRange (-1/2) (1/2) s
      let (size, s) := randRange (1/2000) (3/1000) s
      let (opacity, s) := randRange (3/10) (4/5) s
      let f : Fleck := { x := x, y := y, size := size, opacity := opacity }
      let (rest, s) := genGlitchFlecks n s
      (f :: rest, s)

/-- The generated weathering descriptors. -/
structure WeatheringPass : Type where
  stains : List Stain
  glitchFlecks : List Fleck

/-- The `WeatheringPass` constructor: `_generateStains()`
(`Math.floor(randRange(3, 8))` stains), then `_generateGlitchFlecks()`
(30 flecks). -/
def WeatheringPass.create (s : SeedManager) : WeatheringPass × SeedManager :=
  let (nsq, s) := randRange 3 8 s
  let (stains, s) := genStains (Int.toNat (Int.floor nsq)) s
  let (glitchFlecks, s) := genGlitchFlecks 30 s
  ({ stains := stains, glitchFlecks := glitchFlecks }, s)

/-! ## Session construction (`sketch.js` `setup()`) -/

/-- The per-session content descriptors, built once at `setup()` in source
order — `GeometrySystem`, `GridSystem`, `ParticleSystem`, `WeatheringPass` —
all consuming the single shared `SeedManager`. -/
structure Session : Type where
  geometry : GeometrySystem
  grid : GridSystem
  particles : ParticleSystem
  weathering : WeatheringPass

/-- Construct the session's descriptor sets from a seeded generator. -/
def Session.create (env : Env) (s : SeedManager) : Session :=
  let (geometry, s) := GeometrySystem.create env s
  let (grid, s) := GridSystem.create s
  let (particles, s) := ParticleSystem.create env s
  let (weathering, _) := WeatheringPass.create s
  { geometry := geometry, grid := grid, particles := particles,
    weathering := weathering }

/-- A trivial host environment (all primitives constantly zero), used to
instantiate theorems at concrete inputs. -/
def env0 : Env :=
  { cos := fun _ => 0, sin := fun _ => 0, sqrt := fun _ => 0,
    atan2 := fun _ _ => 0, powPhi := fun _ => 0, noise := fun _ _ _ => 0,
    twoPi := 0, pi := 0, millis := 0 }

/-- A concrete seeded generator whose every unit draw is `1/2`. -/
def seed0 : SeedManager := ⟨fun _ => 1/2, 0⟩


namespace RitualController

/-! ### Structural lemmas about the controller -/

@[simp] lemma updateParameters_currentStateIndex (c : RitualController) :
    (updateParameters c).currentStateIndex = c.currentStateIndex := rfl

@[simp] lemma updateParameters_timeInState (c : RitualController) :
    (updateParameters c).timeInState = c.timeInState := rfl

@[simp] lemma updateParameters_globalTime (c : RitualController) :
    (updateParameters c).globalTime = c.globalTime := rfl

@[simp] lemma updateParameters_targets (c : RitualController) :
    (updateParameters c).targets = c.targets := rfl

@[simp] lemma updateParameters_ritualComplete (c : RitualController) :
    (updateParameters c).ritualComplete = c.ritualComplete := rfl

@[simp] lemma updateParameters_completionTimestamp (c : RitualController) :
    (updateParameters c).completionTimestamp = c.completionTimestamp := rfl

@[simp] lemma transitionToNextState_currentStateIndex (c : RitualController) (now : ℚ) :
    (transitionToNextState c now).currentStateIndex = c.currentStateIndex + 1 := rfl

@[simp] lemma transitionToNextState_timeInState (c : RitualController) (now : ℚ) :
    (transitionToNextState c now).timeInState = 0 := rfl

@[simp] lemma transitionToNextState_globalTime (c : RitualController) (now : ℚ) :
    (transitionToNextState c now).globalTime = c.globalTime := rfl

@[simp] lemma transitionToNextState_params (c : RitualController) (now : ℚ) :
    (transitionToNextState c now).params = c.params := rfl

@[simp] lemma run_nil (c : RitualController) : run c [] = c := rfl

@[simp] lemma run_cons (c : RitualController) (p : ℚ × ℚ) (l : List (ℚ × ℚ)) :
    run c (p :: l) = run (update c p.1 p.2) l := rfl

lemma run_append (c : RitualController) (l1 l2 : List (ℚ × ℚ)) :
    run c (l1 ++ l2) = run (run c l1) l2 := by
  simp [run, List.foldl_append]

lemma update_eq_of_cond (c : RitualController) (dt now : ℚ)
    (hc : stateDuration c.currentStateIndex ≤ c.timeInState + dt ∧ c.currentStateIndex < 9) :
    update c dt now = updateParameters (transitionToNextState
      { c with globalTime := c.globalTime + dt, timeInState := c.timeInState + dt } now) := by
  simp only [update]
  rw [if_pos hc]

lemma update_eq_of_not_cond (c : RitualController) (dt now : ℚ)
    (hc : ¬(stateDuration c.currentStateIndex ≤ c.timeInState + dt ∧ c.currentStateIndex < 9)) :
    update c dt now = updateParameters
      { c with globalTime := c.globalTime + dt, timeInState := c.timeInState + dt } := by
  simp only [update]
  rw [if_neg hc]

/-- An update either keeps the state index or advances it by exactly one. -/
lemma update_index_step (c : RitualController) (dt now : ℚ) :
    (update c dt now).currentStateIndex = c.currentStateIndex ∨
    (update c dt now).currentStateIndex = c.currentStateIndex + 1 := by
  by_cases hc : stateDuration c.currentStateIndex ≤ c.timeInState + dt ∧ c.currentStateIndex < 9
  · right; rw [update_eq_of_cond c dt now hc]; rfl
  · left; rw [update_eq_of_not_cond c dt now hc]; rfl

/-- Every non-terminal state has a strictly positive duration. -/
lemma stateDuration_pos : ∀ i < 9, 0 < stateDuration i := by
  intro i hi
  interval_cases i <;> norm_num [stateDuration]

lemma sumDur_nine : sumDur 9 = 184/5 := by
  norm_num [sumDur, stateDuration]

lemma sumDur_succ_le_nine : ∀ n < 9, sumDur (n + 1) ≤ sumDur 9 := by
  intro n hn
  interval_cases n <;> norm_num [sumDur, stateDuration]

lemma stateName_eq_relic_iff : ∀ n ≤ 9, (stateName n = "RELIC" ↔ n = 9) := by
  intro n hn
  interval_cases n <;> simp [stateName]

/-- Invariant holding at every state reachable by positive-`dt` updates:
the index never passes `RELIC`, in-state time is nonnegative and (outside
`RELIC`) strictly below the state's duration, and the accumulated global
time dominates the durations of all finished states plus the in-state time. -/
def Inv (c : RitualController) : Prop :=
  c.currentStateIndex ≤ 9 ∧ 0 ≤ c.timeInState ∧
  (c.currentStateIndex < 9 → c.timeInState < stateDuration c.currentStateIndex) ∧
  sumDur c.currentStateIndex + c.timeInState ≤ c.globalTime

/-- Field values of `update` when the transition condition holds. -/
lemma update_fields_of_cond (c : RitualController) (dt now : ℚ)
    (hc : stateDuration c.currentStateIndex ≤ c.timeInState + dt ∧ c.currentStateIndex < 9) :
    (update c dt now).currentStateIndex = c.currentStateIndex + 1 ∧
    (update c dt now).timeInState = 0 ∧
    (update c dt now).globalTime = c.globalTime + dt := by
  rw [update_eq_of_cond c dt now hc]
  exact ⟨rfl, rfl, rfl⟩

/-- Field values of `update` when the transition condition fails. -/
lemma update_fields_of_not_cond (c : RitualController) (dt now : ℚ)
    (hc : ¬(stateDuration c.currentStateIndex ≤ c.timeInState + dt ∧ c.currentStateIndex < 9)) :
    (update c dt now).currentStateIndex = c.currentStateIndex ∧
    (update c dt now).timeInState = c.timeInState + dt ∧
    (update c dt now).globalTime = c.globalTime + dt := by
  rw [update_eq_of_not_cond c dt now hc]
  exact ⟨rfl, rfl, rfl⟩

lemma inv_init : Inv init := by
  refine ⟨?_, le_refl 0, ?_, ?_⟩
  · show (0:ℕ) ≤ 9
    norm_num
  · intro _
    show (0:ℚ) < stateDuration 0
    norm_num [stateDuration]
  · show sumDur 0 + 0 ≤ 0
    norm_num [sumDur]

lemma inv_update (c : RitualController) (h : Inv c) (dt now : ℚ) (hdt : 0 < dt) :
    Inv (update c dt now) := by
  obtain ⟨h1, h2, h3, h4⟩ := h
  by_cases hc : stateDuration c.currentStateIndex ≤ c.timeInState + dt ∧ c.currentStateIndex < 9
  · obtain ⟨hi, ht, hg⟩ := update_fields_of_cond c dt now hc
    obtain ⟨hd, hlt⟩ := hc
    refine ⟨?_, ?_, ?_, ?_⟩
    · rw [hi]; omega
    · rw [ht]
    · intro h9
      rw [hi] at h9 ⊢
      rw [ht]
      exact stateDuration_pos _ h9
    · rw [hi, ht, hg]
      have hs : sumDur (c.currentStateIndex + 1) = sumDur c.currentStateIndex +
          stateDuration c.currentStateIndex := rfl
      rw [hs]
      linarith
  · obtain ⟨hi, ht, hg⟩ := update_fields_of_not_cond c dt now hc
    push_neg at hc
    refine ⟨?_, ?_, ?_, ?_⟩
    · rw [hi]; exact h1
    · rw [ht]; linarith
    · intro h9
      rw [hi] at h9 ⊢
      rw [ht]
      by_contra hnot
      push_neg at hnot
      have h99 := hc hnot
      omega
    · rw [hi, ht, hg]
      linarith

lemma inv_run (c : RitualController) (h : Inv c) (l : List (ℚ × ℚ))
    (hl : ∀ p ∈ l, 0 < p.1) : Inv (run c l) := by
  induction l generalizing c with
  | nil => simpa using h
  | cons p l ih =>
      rw [run_cons]
      exact ih _ (inv_update c h p.1 p.2 (hl p (List.mem_cons_self p l)))
        (fun q hq => hl q (List.mem_cons_of_mem p hq))

lemma gp_of_lt (c : RitualController) (h9 : c.currentStateIndex < 9) :
    getGlobalProgress c = (sumDur c.currentStateIndex + c.timeInState) / sumDur 9 := by
  have hne : ¬ stateName c.currentStateIndex = "RELIC" := by
    rw [stateName_eq_relic_iff _ (le_of_lt h9)]
    omega
  rw [getGlobalProgress, if_neg hne, min_eq_left (le_of_lt h9), if_pos h9]

lemma gp_of_nine (c : RitualController) (h9 : c.currentStateIndex = 9) :
    getGlobalProgress c = 1 := by
  rw [getGlobalProgress, if_pos]
  rw [h9]
  rfl

lemma gp_le_one (c : RitualController) (h : Inv c) : getGlobalProgress c ≤ 1 := by
  obtain ⟨h1, h2, h3, h4⟩ := h
  rcases Nat.lt_or_ge c.currentStateIndex 9 with h9 | h9
  · rw [gp_of_lt c h9]
    have htis := h3 h9
    have hle : sumDur (c.currentStateIndex + 1) ≤ sumDur 9 := sumDur_succ_le_nine _ h9
    have hs : sumDur (c.currentStateIndex + 1) = sumDur c.currentStateIndex +
        stateDuration c.currentStateIndex := rfl
    rw [div_le_one (by rw [sumDur_nine]; norm_num)]
    linarith
  · have : c.currentStateIndex = 9 := le_antisymm h1 h9
    rw [gp_of_nine c this]

lemma gp_mono_step (c : RitualController) (h : Inv c) (dt now : ℚ) (hdt : 0 < dt) :
    getGlobalProgress c ≤ getGlobalProgress (update c dt now) := by
  obtain ⟨h1, h2, h3, h4⟩ := h
  have hD : (0:ℚ) < sumDur 9 := by rw [sumDur_nine]; norm_num
  rcases Nat.lt_or_ge c.currentStateIndex 9 with h9 | h9
  · have htis := h3 h9
    by_cases hc : stateDuration c.currentStateIndex ≤ c.timeInState + dt ∧
        c.currentStateIndex < 9
    · obtain ⟨hi, ht, hg⟩ := update_fields_of_cond c dt now hc
      rw [gp_of_lt c h9]
      have hnum : sumDur c.currentStateIndex + c.timeInState <
          sumDur (c.currentStateIndex + 1) := by
        have hs : sumDur (c.currentStateIndex + 1) = sumDur c.currentStateIndex +
            stateDuration c.currentStateIndex := rfl
        rw [hs]; linarith
      rcases Nat.lt_or_ge (c.currentStateIndex + 1) 9 with hlt | hge
      · rw [gp_of_lt _ (by rw [hi]; exact hlt), hi, ht]
        rw [div_le_div_iff_of_pos_right hD]
        linarith
      · have h19 : c.currentStateIndex + 1 = 9 := by omega
        rw [gp_of_nine _ (by rw [hi]; exact h19)]
        rw [div_le_one hD]
        have := sumDur_succ_le_nine _ h9
        linarith
    · obtain ⟨hi, ht, hg⟩ := update_fields_of_not_cond c dt now hc
      rw [gp_of_lt c h9, gp_of_lt _ (by rw [hi]; exact h9), hi, ht]
      rw [div_le_div_iff_of_pos_right hD]
      linarith
  · have hix : c.currentStateIndex = 9 := le_antisymm h1 h9
    have hc : ¬(stateDuration c.currentStateIndex ≤ c.timeInState + dt ∧
        c.currentStateIndex < 9) := by
      rw [hix]; simp
    obtain ⟨hi, ht, hg⟩ := update_fields_of_not_cond c dt now hc
    rw [gp_of_nine c hix, gp_of_nine _ (by rw [hi]; exact hix)]

/-- Updates from `RELIC` (index 9) leave the index, completion flag and
completion timestamp untouched. -/
lemma update_at_relic (c : RitualController) (h9 : c.currentStateIndex = 9) (dt now : ℚ) :
    (update c dt now).currentStateIndex = 9 ∧
    (update c dt now).completionTimestamp = c.completionTimestamp ∧
    (update c dt now).ritualComplete = c.ritualComplete := by
  have hc : ¬(stateDuration c.currentStateIndex ≤ c.timeInState + dt ∧
      c.currentStateIndex < 9) := by
    rw [h9]; simp
  rw [update_eq_of_not_cond c dt now hc]
  exact ⟨h9, rfl, rfl⟩

end RitualController

/-! ### Claim theorems about the RitualController -/

/-- A shorthand for the evaluation simp set of the controller. -/
lemma run_replicate_nine_hundred :
    (RitualController.run .init (List.replicate 8 ((100:ℚ), (7:ℚ)))).currentStateIndex = 8 ∧
    (RitualController.run .init (List.replicate 9 ((100:ℚ), (7:ℚ)))).currentStateIndex = 9 ∧
    (RitualController.run .init (List.replicate 9 ((100:ℚ), (7:ℚ)))).globalTime = 900 ∧
    (RitualController.run .init (List.replicate 9 ((100:ℚ), (7:ℚ)))).completionTimestamp =
      some 7 ∧
    (RitualController.run .init (List.replicate 9 ((100:ℚ), (7:ℚ)))).ritualComplete = true := by
  norm_num [RitualController.run, RitualController.update,
    RitualController.updateParameters, RitualController.transitionToNextState,
    stateDuration, stateName, RitualController.init, List.replicate]

/-- C10: a single `update(dt)` call performs at most one state transition no
matter how large `dt` is, and on a transition the elapsed-in-state time is
reset to exactly zero (accumulated overshoot beyond the finished state's
duration is discarded, not carried into the next state). -/
theorem update_single_transition_and_reset (c : RitualController) (dt now : ℚ) :
    ((RitualController.update c dt now).currentStateIndex = c.currentStateIndex ∨
     (RitualController.update c dt now).currentStateIndex = c.currentStateIndex + 1) ∧
    ((RitualController.update c dt now).currentStateIndex = c.currentStateIndex + 1 →
      (RitualController.update c dt now).timeInState = 0) := by
  by_cases hc : stateDuration c.currentStateIndex ≤ c.timeInState + dt ∧
      c.currentStateIndex < 9
  · obtain ⟨hi, ht, _⟩ := RitualController.update_fields_of_cond c dt now hc
    exact ⟨Or.inr hi, fun _ => ht⟩
  · obtain ⟨hi, ht, _⟩ := RitualController.update_fields_of_not_cond c dt now hc
    refine ⟨Or.inl hi, fun h => ?_⟩
    rw [hi] at h
    omega

/-- Witness for C10 at a concrete transition: one large update from the
initial state advances `BOOT → TITLE` and resets the in-state clock. -/
theorem update_single_transition_and_reset_witness :
    (RitualController.update .init 100 0).currentStateIndex =
      RitualController.init.currentStateIndex + 1 ∧
    (RitualController.update .init 100 0).timeInState = 0 := by
  have h : (RitualController.update .init 100 0).currentStateIndex =
      RitualController.init.currentStateIndex + 1 := by
    norm_num [RitualController.update, RitualController.updateParameters,
      RitualController.transitionToNextState, stateDuration, RitualController.init]
  exact ⟨h, (update_single_transition_and_reset .init 100 0).2 h⟩

/-- C3 (amended): with positive `dt`, the controller walks the 10 states in
declared order — each update advances the index by at most one and never
decreases it, and the index never passes the terminal `RELIC` index 9 — and
whenever `RELIC` has been entered the total accumulated `dt` is at least the
sum `36.8` of all non-terminal durations (it can exceed that sum, since the
overshoot of each state's final update is discarded). -/
theorem ritual_visits_states_in_order (l : List (ℚ × ℚ)) (hl : ∀ p ∈ l, 0 < p.1) :
    (RitualController.run .init l).currentStateIndex ≤ 9 ∧
    (∀ dt now : ℚ,
      (RitualController.update (RitualController.run .init l) dt now).currentStateIndex =
        (RitualController.run .init l).currentStateIndex ∨
      (RitualController.update (RitualController.run .init l) dt now).currentStateIndex =
        (RitualController.run .init l).currentStateIndex + 1) ∧
    ((RitualController.run .init l).currentStateIndex = 9 →
      184/5 ≤ (RitualController.run .init l).globalTime) := by
  obtain ⟨h1, h2, h3, h4⟩ := RitualController.inv_run _ RitualController.inv_init l hl
  refine ⟨h1, fun dt now => RitualController.update_index_step _ dt now, ?_⟩
  intro h9
  rw [h9] at h4
  rw [RitualController.sumDur_nine] at h4
  linarith

/-- Witness for C3 (amended) on a run of nine 100-second updates, which ends
exactly at the entry to `RELIC`. -/
theorem ritual_visits_states_in_order_witness :
    (∀ p ∈ List.replicate 9 ((100:ℚ), (7:ℚ)), 0 < p.1) ∧
    (RitualController.run .init (List.replicate 9 ((100:ℚ), (7:ℚ)))).currentStateIndex ≤ 9 ∧
    184/5 ≤ (RitualController.run .init (List.replicate 9 ((100:ℚ), (7:ℚ)))).globalTime := by
  have hpos : ∀ p ∈ List.replicate 9 ((100:ℚ), (7:ℚ)), 0 < p.1 := by
    intro p hp
    rw [List.eq_of_mem_replicate hp]
    norm_num
  exact ⟨hpos, (ritual_visits_states_in_order _ hpos).1,
    (ritual_visits_states_in_order _ hpos).2.2 run_replicate_nine_hundred.2.1⟩

/-- C3 as literally stated is false: the total accumulated `dt` at the moment
`RELIC` is entered need not equal the sum of the non-terminal durations
(36.8) within any floating-point tolerance.  Nine updates of `dt = 100`
(each positive) enter `RELIC` on the ninth call — after eight calls the
index is 8, after nine it is 9 — with 900 accumulated seconds, off by more
than 863 from 36.8, because each transition discards the overshoot. -/
theorem ritual_total_time_counterexample :
    (∀ p ∈ List.replicate 9 ((100:ℚ), (7:ℚ)), 0 < p.1) ∧
    (RitualController.run .init (List.replicate 8 ((100:ℚ), (7:ℚ)))).currentStateIndex = 8 ∧
    (RitualController.run .init (List.replicate 9 ((100:ℚ), (7:ℚ)))).currentStateIndex = 9 ∧
    (RitualController.run .init (List.replicate 9 ((100:ℚ), (7:ℚ)))).globalTime = 900 ∧
    RitualController.sumDur 9 = 184/5 ∧
    ¬ ((RitualController.run .init (List.replicate 9 ((100:ℚ), (7:ℚ)))).globalTime -
        RitualController.sumDur 9 ≤ 863) := by
  obtain ⟨h8, h9, hg, _, _⟩ := run_replicate_nine_hundred
  refine ⟨?_, h8, h9, hg, RitualController.sumDur_nine, ?_⟩
  · intro p hp
    rw [List.eq_of_mem_replicate hp]
    norm_num
  · rw [hg, RitualController.sumDur_nine]
    norm_num

/-- C4: after every positive-`dt` update of a reachable controller state, the
global progress is monotone non-decreasing, never exceeds 1, and equals
exactly 1 whenever the current state is the terminal `RELIC` state. -/
theorem globalProgress_monotone_bounded (l : List (ℚ × ℚ)) (hl : ∀ p ∈ l, 0 < p.1)
    (dt now : ℚ) (hdt : 0 < dt) :
    RitualController.getGlobalProgress (RitualController.run .init l) ≤
      RitualController.getGlobalProgress
        (RitualController.update (RitualController.run .init l) dt now) ∧
    RitualController.getGlobalProgress
        (RitualController.update (RitualController.run .init l) dt now) ≤ 1 ∧
    ((RitualController.update (RitualController.run .init l) dt now).currentStateIndex = 9 →
      RitualController.getGlobalProgress
        (RitualController.update (RitualController.run .init l) dt now) = 1) := by
  have hinv := RitualController.inv_run _ RitualController.inv_init l hl
  exact ⟨RitualController.gp_mono_step _ hinv dt now hdt,
    RitualController.gp_le_one _ (RitualController.inv_update _ hinv dt now hdt),
    fun h9 => RitualController.gp_of_nine _ h9⟩

/-- Witness for C4: a ninth 100-second update from the eight-update run
enters `RELIC` and reports global progress exactly 1. -/
theorem globalProgress_monotone_bounded_witness :
    (∀ p ∈ List.replicate 8 ((100:ℚ), (7:ℚ)), 0 < p.1) ∧ (0:ℚ) < 100 ∧
    RitualController.getGlobalProgress
      (RitualController.run .init (List.replicate 8 ((100:ℚ), (7:ℚ)))) ≤
      RitualController.getGlobalProgress
        (RitualController.update
          (RitualController.run .init (List.replicate 8 ((100:ℚ), (7:ℚ)))) 100 7) ∧
    RitualController.getGlobalProgress
        (RitualController.update
          (RitualController.run .init (List.replicate 8 ((100:ℚ), (7:ℚ)))) 100 7) = 1 := by
  have hpos : ∀ p ∈ List.replicate 8 ((100:ℚ), (7:ℚ)), 0 < p.1 := by
    intro p hp
    rw [List.eq_of_mem_replicate hp]
    norm_num
  have heq :
      RitualController.update
        (RitualController.run .init (List.replicate 8 ((100:ℚ), (7:ℚ)))) 100 7 =
      RitualController.run .init (List.replicate 9 ((100:ℚ), (7:ℚ))) := by
    have hsplit : List.replicate 9 ((100:ℚ), (7:ℚ)) =
        List.replicate 8 ((100:ℚ), (7:ℚ)) ++ [((100:ℚ), (7:ℚ))] := by rfl
    rw [hsplit, RitualController.run_append]
    rfl
  have hnine :
      (RitualController.update
        (RitualController.run .init (List.replicate 8 ((100:ℚ), (7:ℚ)))) 100 7).currentStateIndex
        = 9 := by
    rw [heq]
    exact run_replicate_nine_hundred.2.1
  exact ⟨hpos, by norm_num,
    (globalProgress_monotone_bounded _ hpos 100 7 (by norm_num)).1,
    (globalProgress_monotone_bounded _ hpos 100 7 (by norm_num)).2.2 hnine⟩

/-- C5: on every update each of the 10 parameter channels is rewritten
exactly once by `value ← value + (target − value) × 0.05`, where the target
is the active (post-transition) state's target for that channel and the
factor `0.05` is a fixed constant not multiplied by `dt` (the equation does
not mention `dt`). -/
theorem params_smoothing_rule (c : RitualController) (dt now : ℚ) (ch : Channel) :
    (RitualController.update c dt now).params ch =
      c.params ch +
        ((RitualController.update c dt now).targets ch - c.params ch) * (1/20) := by
  by_cases hc : stateDuration c.currentStateIndex ≤ c.timeInState + dt ∧
      c.currentStateIndex < 9
  · rw [RitualController.update_eq_of_cond c dt now hc]
    rfl
  · rw [RitualController.update_eq_of_not_cond c dt now hc]
    rfl

/-- C6: once the completion flag is set and the completion timestamp frozen
on entry to `RELIC` (index 9), no sequence of further update calls — with any
`dt` whatsoever — changes the stored timestamp or clears the flag. -/
theorem completion_timestamp_immutable (c : RitualController) (ts : ℚ)
    (h9 : c.currentStateIndex = 9) (hts : c.completionTimestamp = some ts)
    (hflag : c.ritualComplete = true) (l : List (ℚ × ℚ)) :
    (RitualController.run c l).completionTimestamp = some ts ∧
    (RitualController.run c l).ritualComplete = true := by
  induction l generalizing c with
  | nil => exact ⟨hts, hflag⟩
  | cons p l ih =>
      rw [RitualController.run_cons]
      obtain ⟨hi, hcts, hrc⟩ := RitualController.update_at_relic c h9 p.1 p.2
      exact ih _ hi (hcts.trans hts) (hrc.trans hflag)

/-- Witness for C6: the nine-update run that enters `RELIC` with timestamp 7
keeps timestamp and flag across one more update. -/
theorem completion_timestamp_immutable_witness :
    (RitualController.run .init (List.replicate 9 ((100:ℚ), (7:ℚ)))).currentStateIndex = 9 ∧
    (RitualController.run .init (List.replicate 9 ((100:ℚ), (7:ℚ)))).completionTimestamp =
      some 7 ∧
    (RitualController.run .init (List.replicate 9 ((100:ℚ), (7:ℚ)))).ritualComplete = true ∧
    (RitualController.run
        (RitualController.run .init (List.replicate 9 ((100:ℚ), (7:ℚ))))
        [((1:ℚ), (11:ℚ))]).completionTimestamp = some 7 := by
  obtain ⟨_, h9, _, hts, hflag⟩ := run_replicate_nine_hundred
  exact ⟨h9, hts, hflag,
    (completion_timestamp_immutable _ 7 h9 hts hflag [((1:ℚ), (11:ℚ))]).1⟩


/-! ### Claim theorems about the EditionManager -/

/-- All editions in `[0, 100]` pad to exactly three characters. -/
lemma padStart3_length_of_le_cap :
    ∀ e : Fin 101, (EditionManager.padStart3 (toString e.val)).length = 3 := by
  decide

/-- C2: for every visitor token and master seed, the edition number equals
`simpleHash(visitorToken + masterSeed) mod 100 + 1`, lies in `[1, 100]`, and
the label is the fixed text `"Edition "`, the zero-padded three-digit
edition number, and the fixed cap text `" of 100"`. -/
theorem edition_formula_range_label (visitorToken masterSeed : JSString) :
    EditionManager.computeEdition visitorToken masterSeed =
      simpleHash (visitorToken ++ masterSeed) % 100 + 1 ∧
    1 ≤ EditionManager.computeEdition visitorToken masterSeed ∧
    EditionManager.computeEdition visitorToken masterSeed ≤ 100 ∧
    EditionManager.formatEditionLabel
        (EditionManager.computeEdition visitorToken masterSeed) =
      "Edition " ++
        EditionManager.padStart3
          (toString (EditionManager.computeEdition visitorToken masterSeed)) ++
        " of 100" ∧
    (EditionManager.padStart3
      (toString (EditionManager.computeEdition visitorToken masterSeed))).length = 3 := by
  have hb : simpleHash (visitorToken ++ masterSeed) % 100 < 100 :=
    Nat.mod_lt _ (by norm_num)
  have hle : EditionManager.computeEdition visitorToken masterSeed ≤ 100 := by
    show simpleHash (visitorToken ++ masterSeed) % 100 + 1 ≤ 100
    omega
  refine ⟨rfl, Nat.le_add_left 1 _, hle, ?_, ?_⟩
  · show "Edition " ++ _ ++ " of " ++ toString EditionManager.cap = _
    rw [String.append_assoc]
    rfl
  · exact padStart3_length_of_le_cap
      ⟨EditionManager.computeEdition visitorToken masterSeed, by omega⟩

/-! ### Claim theorems about the ParticleSystem -/

lemma updateParticle_active (env : Env) (energy noiseAmp dt : ℚ) (ac : ℤ)
    (i : ℕ) (p : Particle) :
    (updateParticle env energy noiseAmp dt ac i p).active = decide ((i : ℤ) < ac) := by
  by_cases h : (i : ℤ) < ac
  · simp [updateParticle, h]
  · simp [updateParticle, h]

lemma updateParticles_length (env : Env) (energy noiseAmp dt : ℚ) (ac : ℤ) :
    ∀ (i : ℕ) (ps : List Particle),
      (updateParticles env energy noiseAmp dt ac i ps).length = ps.length := by
  intro i ps
  induction ps generalizing i with
  | nil => rfl
  | cons p ps ih => simp [updateParticles, ih]

lemma updateParticles_map_active (env : Env) (energy noiseAmp dt : ℚ) (ac : ℤ) :
    ∀ (i : ℕ) (ps : List Particle),
      (updateParticles env energy noiseAmp dt ac i ps).map Particle.active =
        (List.range' i ps.length).map (fun j => decide ((j : ℤ) < ac)) := by
  intro i ps
  induction ps generalizing i with
  | nil => rfl
  | cons p ps ih =>
      show (updateParticle env energy noiseAmp dt ac i p ::
          updateParticles env energy noiseAmp dt ac (i + 1) ps).map Particle.active =
        (List.range' i (ps.length + 1)).map (fun j => decide ((j : ℤ) < ac))
      rw [List.map_cons, updateParticle_active, ih (i + 1)]
      rfl

lemma updateParticles_countP (env : Env) (energy noiseAmp dt : ℚ) (ac : ℤ) :
    ∀ (i : ℕ) (ps : List Particle),
      (updateParticles env energy noiseAmp dt ac i ps).countP Particle.active =
        min (Int.toNat ac) (i + ps.length) - i := by
  intro i ps
  induction ps generalizing i with
  | nil =>
      show (0 : ℕ) = min (Int.toNat ac) (i + 0) - i
      omega
  | cons p ps ih =>
      show List.countP Particle.active
          (updateParticle env energy noiseAmp dt ac i p ::
            updateParticles env energy noiseAmp dt ac (i + 1) ps) = _
      rw [List.countP_cons, ih (i + 1), updateParticle_active, List.length_cons]
      by_cases h : (i : ℤ) < ac
      · rw [decide_eq_true h, if_pos rfl]
        omega
      · rw [decide_eq_false h, if_neg (by simp)]
        omega

lemma createParticles_length (env : Env) :
    ∀ (n : ℕ) (s : SeedManager), (createParticles env n s).1.length = n := by
  intro n
  induction n with
  | zero => intro s; rfl
  | succ n ih =>
      intro s
      show ((createParticle env s).1 :: (createParticles env n _).1).length = n + 1
      simp [ih]

/-- C7 (amended): after one `update` call the particle at index `i` is active
exactly when `i < floor(particleEnergy × maxParticles)`; hence the number of
active particles is `min(max(floor(energy × capacity), 0), capacity·length)`
— the floor value itself only when it lies within the array — and the array
always keeps all of its elements. -/
theorem particle_active_count_rule (env : Env) (sys : ParticleSystem)
    (params : Params) (dt : ℚ) :
    (ParticleSystem.update env sys params dt).particles.length =
      sys.particles.length ∧
    (ParticleSystem.update env sys params dt).particles.map Particle.active =
      (List.range sys.particles.length).map
        (fun i => decide ((i : ℤ) <
          Int.floor (params Channel.particleEnergy * (sys.maxParticles : ℚ)))) ∧
    (ParticleSystem.update env sys params dt).particles.countP Particle.active =
      min (Int.toNat (Int.floor (params Channel.particleEnergy * (sys.maxParticles : ℚ))))
        sys.particles.length := by
  refine ⟨updateParticles_length env _ _ dt _ 0 sys.particles, ?_, ?_⟩
  · show (updateParticles env _ _ dt _ 0 sys.particles).map Particle.active = _
    rw [updateParticles_map_active, ← List.range_eq_range']
  · show (updateParticles env _ _ dt _ 0 sys.particles).countP Particle.active = _
    rw [updateParticles_countP]
    omega

/-- C7 as literally stated is false at reachable energies above 1: the
`DESTABILIZE` state targets `particleEnergy = 1.2`, where
`floor(1.2 × 120) = 144`, yet a 120-particle system reports only 120 active
particles after an update, not 144. -/
theorem particle_count_cap_counterexample :
    stateTargets 6 Channel.particleEnergy = 6/5 ∧
    Int.floor ((6/5 : ℚ) * 120) = 144 ∧
    (ParticleSystem.update env0 (ParticleSystem.create env0 seed0).1
        (stateTargets 6) (1/60)).particles.countP Particle.active = 120 ∧
    (120 : ℕ) ≠ 144 := by
  have hlen : (ParticleSystem.create env0 seed0).1.particles.length = 120 := by
    show (createParticles env0 120 seed0).1.length = 120
    exact createParticles_length env0 120 seed0
  have hfloor : Int.floor ((6/5 : ℚ) * 120) = 144 := by
    have h : (6/5 : ℚ) * 120 = ((144 : ℤ) : ℚ) := by norm_num
    rw [h, Int.floor_intCast]
  refine ⟨rfl, hfloor, ?_, by norm_num⟩
  show (updateParticles env0 _ _ _ _ 0 _).countP Particle.active = 120
  rw [updateParticles_countP, hlen]
  have he : stateTargets 6 Channel.particleEnergy = 6/5 := rfl
  have hm : ((ParticleSystem.create env0 seed0).1.maxParticles : ℚ) = 120 := rfl
  rw [he, hm, hfloor]
  omega

/-! ### Claim theorems about the GeometrySystem reveal count -/

lemma clamp_comm (v : ℚ) : max 0 (min v 1) = min 1 (max 0 v) := by
  rw [max_def, max_def, min_def, min_def]
  split_ifs <;> linarith

/-- C8: for every geometry-completion value and every circle set of `n`
circles, the render path reveals exactly `ceil(m × n)` circles where `m` is
the completion remapped linearly from `[0.2, 1.0]` to `[0, 1]` and clamped
to `[0, 1]` — the early-outs of `render` at `completion ≤ 0` and
`completion ≤ 0.2` coincide with the formula's value 0 there. -/
theorem circle_reveal_count_matches_spec (completion : ℚ) (n : ℕ) :
    revealedCircleCount completion n = specRevealedCount completion n := by
  unfold revealedCircleCount specRevealedCount
  have hzero : ∀ h : completion ≤ 1/5,
      Int.ceil (min 1 (max 0 ((completion - 1/5) / (4/5))) * (n : ℚ)) = 0 := by
    intro h
    have hdiv : (completion - 1/5) / (4/5) = (completion - 1/5) * (5/4) := by ring
    have hnp : (completion - 1/5) * (5/4) ≤ 0 := by nlinarith
    have hmax : max 0 ((completion - 1/5) / (4/5)) = 0 := by
      rw [hdiv]; exact max_eq_left hnp
    rw [hmax, min_eq_right (by norm_num : (0:ℚ) ≤ 1), zero_mul, Int.ceil_zero]
  by_cases h0 : completion ≤ 0
  · rw [if_pos h0, hzero (le_trans h0 (by norm_num))]
  · rw [if_neg h0]
    by_cases h5 : 1/5 < completion
    · rw [if_pos h5]
      congr 1
      show p5mapClamped completion (1/5) 1 0 1 * (n : ℚ) = _
      have hmap : p5mapClamped completion (1/5) 1 0 1 =
          max 0 (min ((completion - 1/5) / (4/5)) 1) := by
        unfold p5mapClamped
        norm_num
      rw [hmap, clamp_comm]
    · rw [if_neg h5, hzero (by linarith)]

/-! ### Claim theorems about the GridSystem line coloring -/

/-- C9: in the grid render loops, line `i` (for `0 ≤ i ≤ gridSize`, both the
vertical and the horizontal pass) is assigned the inner palette color slot
exactly when `|i − gridSize/2| < gridSize × 0.3`, and the outer palette
color slot otherwise. -/
theorem grid_line_inner_color_rule (gridSize innerGridColor outerGridColor : ℤ)
    (i : ℕ) (hi : (i : ℤ) ≤ gridSize) :
    (verticalLineColors gridSize innerGridColor outerGridColor)[i]? =
      some (if |(i : ℚ) - (gridSize : ℚ) / 2| < (gridSize : ℚ) * (3/10)
            then innerGridColor else outerGridColor) ∧
    (horizontalLineColors gridSize innerGridColor outerGridColor)[i]? =
      some (if |(i : ℚ) - (gridSize : ℚ) / 2| < (gridSize : ℚ) * (3/10)
            then innerGridColor else outerGridColor) ∧
    (lineIsInner gridSize i = true ↔
      |(i : ℚ) - (gridSize : ℚ) / 2| < (gridSize : ℚ) * (3/10)) := by
  have hilen : i < Int.toNat gridSize + 1 := by omega
  have hcolor : lineColorIndex gridSize innerGridColor outerGridColor i =
      if |(i : ℚ) - (gridSize : ℚ) / 2| < (gridSize : ℚ) * (3/10)
      then innerGridColor else outerGridColor := by
    unfold lineColorIndex lineIsInner
    by_cases h : |(i : ℚ) - (gridSize : ℚ) / 2| < (gridSize : ℚ) * (3/10) <;>
      simp [h]
  have hvert : (verticalLineColors gridSize innerGridColor outerGridColor)[i]? =
      some (lineColorIndex gridSize innerGridColor outerGridColor i) := by
    unfold verticalLineColors
    rw [List.getElem?_map, List.getElem?_range hilen]
    rfl
  have hhorz : (horizontalLineColors gridSize innerGridColor outerGridColor)[i]? =
      some (lineColorIndex gridSize innerGridColor outerGridColor i) := by
    unfold horizontalLineColors
    rw [List.getElem?_map, List.getElem?_range hilen]
    rfl
  refine ⟨by rw [hvert, hcolor], by rw [hhorz, hcolor], ?_⟩
  unfold lineIsInner
  exact decide_eq_true_iff

/-- Witness for C9 on a 20-line grid: the center line 10 lies strictly within
30% of the grid size of the center and receives the inner palette slot. -/
theorem grid_line_inner_color_rule_witness :
    ((10 : ℤ) ≤ 20) ∧
    (verticalLineColors 20 1 2)[(10:ℕ)]? = some 1 := by
  have h := (grid_line_inner_color_rule 20 1 2 10 (by norm_num)).1
  refine ⟨by norm_num, ?_⟩
  rw [h]
  norm_num

/-! ### Claim theorem: seed determinism of the content descriptors -/

/-- C1: two independently constructed sessions whose seeded generators return
the same draw sequence (and which run in the same host environment) produce
identical content-descriptor sets: the same circle sets (hence equal centers,
radii, stroke weights, fill flags and fill alphas), the same spiral point
sequences, the same radial guides, the same grid fragments (positions and
drift vectors), and the same stain and glitch-fleck parameters. -/
theorem session_descriptors_deterministic (env : Env) (draws1 draws2 : ℕ → ℚ)
    (h : draws1 = draws2) :
    (Session.create env ⟨draws1, 0⟩).geometry.circleSets =
      (Session.create env ⟨draws2, 0⟩).geometry.circleSets ∧
    (Session.create env ⟨draws1, 0⟩).geometry.spirals =
      (Session.create env ⟨draws2, 0⟩).geometry.spirals ∧
    (Session.create env ⟨draws1, 0⟩).geometry.radialGuides =
      (Session.create env ⟨draws2, 0⟩).geometry.radialGuides ∧
    (Session.create env ⟨draws1, 0⟩).grid.fragments =
      (Session.create env ⟨draws2, 0⟩).grid.fragments ∧
    (Session.create env ⟨draws1, 0⟩).weathering.stains =
      (Session.create env ⟨draws2, 0⟩).weathering.stains ∧
    (Session.create env ⟨draws1, 0⟩).weathering.glitchFlecks =
      (Session.create env ⟨draws2, 0⟩).weathering.glitchFlecks := by
  subst h
  exact ⟨rfl, rfl, rfl, rfl, rfl, rfl⟩

/-- Witness for C1 at the concrete all-halves draw stream. -/
theorem session_descriptors_deterministic_witness :
    (seed0.draws = seed0.draws) ∧
    (Session.create env0 ⟨seed0.draws, 0⟩).geometry.circleSets =
      (Session.create env0 ⟨seed0.draws, 0⟩).geometry.circleSets :=
  ⟨rfl, (session_descriptors_deterministic env0 seed0.draws seed0.draws rfl).1⟩


end StillBecoming
